import Mathlib

/-!
Verification of the Velocity-AI staged CSV pipeline against its design
specification.

Part 1 models the presentation layer, translated from
`ReactApps/vel-csv-pipeline-ui/ui/web/src/App.tsx`.

Part 2 models the stage orchestration and validation engine.  The engine's
source is not present in the repository snapshot (only its UI client is), so
those definitions are modelled from the specification text, as marked in
their doc comments.
-/

namespace VelocityAI

/-! ### Part 1: presentation layer (from App.tsx) -/

/-- The `Stage` union type of App.tsx: four string-literal variants. -/
inductive Stage where
  | transcriptGenerator
  | transcriptValidator
  | signalExtractor
  | shadowValidator
  deriving DecidableEq, Repr

/-- The string value of each `Stage` variant in App.tsx
(`"Transcript Generator"` etc., with spaces). -/
def stageLabel : Stage → String
  | .transcriptGenerator => "Transcript Generator"
  | .transcriptValidator => "Transcript Validator"
  | .signalExtractor => "Signal Extractor"
  | .shadowValidator => "Shadow Validator"

/-- JSON scalar values appearing in the run payload: the five string fields
and the numeric `limit`.  A JSON number is modelled as a rational, since
the source's numbers are not restricted to integers. -/
inductive JValue where
  | str (s : String)
  | num (n : ℚ)
  deriving DecidableEq, Repr

/-- The form state of the App component: the five configuration fields plus
the stage selection (`useState` hooks of App.tsx).  `limit` is a TypeScript
number fed by `setLimit(Number(e.target.value))` from a number input whose
submission path performs no integrality check, so non-integral values such
as 2.5 are reachable; it is therefore modelled as a rational, not an
integer. -/
structure FormState where
  stage : Stage
  projectId : String
  dataset : String
  sourceVersion : String
  targetVersion : String
  limit : ℚ
  deriving DecidableEq, Repr

/-- The JSON body built by `handleRun`:
`const payload = { stage, projectId, dataset, sourceVersion, targetVersion, limit }`,
as an ordered list of key/value pairs. -/
def runPayload (f : FormState) : List (String × JValue) :=
  [ ("stage", .str (stageLabel f.stage)),
    ("projectId", .str f.projectId),
    ("dataset", .str f.dataset),
    ("sourceVersion", .str f.sourceVersion),
    ("targetVersion", .str f.targetVersion),
    ("limit", .num f.limit) ]

/-- The HTTP request issued by `handleRun`. -/
structure RunRequest where
  path : String
  method : String
  body : List (String × JValue)
  deriving DecidableEq, Repr

/-- `fetch("/api/run", { method: "POST", ..., body: JSON.stringify(payload) })`
from App.tsx. -/
def buildRunRequest (f : FormState) : RunRequest :=
  { path := "/api/run", method := "POST", body := runPayload f }

/-- The view-relevant state of the App component after a run:
the `result`, `loading` and `error` hooks. -/
structure ViewState where
  result : Option String
  loading : Bool
  error : Option String
  deriving DecidableEq, Repr

/-- The possible outcomes of the `fetch` call awaited by `handleRun`:
it resolves with an OK status and a JSON body, resolves with a non-OK
status (and some body, which may or may not be read), or rejects with an
error whose `message` may be absent. -/
inductive FetchOutcome where
  | ok (data : String)
  | nonOk (status : Nat) (body : String)
  | threw (msg : Option String)
  deriving DecidableEq, Repr

/-- `handleRun` from App.tsx, as a function from the fetch outcome to the
final component state: it sets `loading=true`, `error=null`, `result=null`,
awaits the fetch, throws `Error("HTTP " + status)` on a non-OK status,
stores the parsed body on success, stores `e.message ?? "Unknown error"` in
`error` on any throw, and clears `loading` in the `finally` block. -/
def handleRun (o : FetchOutcome) : ViewState :=
  match o with
  | .ok data => { result := some data, loading := false, error := none }
  | .nonOk status _ =>
      { result := none, loading := false,
        error := some ("HTTP " ++ toString status) }
  | .threw msg =>
      { result := none, loading := false,
        error := some (msg.getD "Unknown error") }

/-! ### Part 2: the orchestration engine, modelled from the spec

The Run Coordinator, Dataset Accessor, Stage Executors and Comparator are
described in the specification but their source is not in the repository
snapshot; every definition below is modelled from the spec text. -/

/-- Modelled from the spec: a scalar cell value; value comparison is exact,
with no implicit type coercion (a numeric `1` and a textual `"1"` differ). -/
inductive Value where
  | int (n : Int)
  | str (s : String)
  deriving DecidableEq, Repr, BEq

/-- Modelled from the spec: a Row is an ordered mapping from column name to
scalar value. -/
abbrev Row := List (String × Value)

/-- Modelled from the spec: the implicit natural identifier of a row — the
first column's value, by convention. -/
def rowId (r : Row) : Option Value :=
  r.head?.map Prod.snd

/-- Modelled from the spec: the value of a named column of a row, `none`
when the column is absent (presence is explicit, not defaulted to null). -/
def lookupCol (r : Row) (c : String) : Option Value :=
  (r.find? (fun p => decide (p.1 = c))).map Prod.snd

/-- Modelled from the spec: the ordered column names of a row. -/
def rowCols (r : Row) : List String :=
  r.map Prod.fst

/-- Modelled from the spec: discrepancy kinds Missing, Extra, Mismatch. -/
inductive DKind where
  | missing
  | extra
  | mismatch
  deriving DecidableEq, Repr

/-- Modelled from the spec: a Discrepancy record
(rowId, column, sourceValue, targetValue, kind). -/
structure Discrepancy where
  rowId : Option Value
  column : Option String
  sourceValue : Option Value
  targetValue : Option Value
  kind : DKind
  deriving DecidableEq, Repr

/-- Modelled from the spec: the column-by-column comparison of one matched
row pair — over the columns present in either row, in source column order
then remaining target columns — emitting a Mismatch for each differing
value. -/
def compareColumns (s t : Row) : List Discrepancy :=
  let cols := rowCols s ++ (rowCols t).filter (fun c => decide (c ∉ rowCols s))
  cols.filterMap (fun c =>
    if lookupCol s c = lookupCol t c then none
    else some
      { rowId := rowId s, column := some c, sourceValue := lookupCol s c,
        targetValue := lookupCol t c, kind := .mismatch })

/-- Modelled from the spec: the source-order pass of the Comparator — for
each source row, a Missing discrepancy when no target row has its id, else
the column-by-column Mismatch entries. -/
def compareMain (sourceRows targetRows : List Row) : List Discrepancy :=
  sourceRows.flatMap (fun s =>
    match targetRows.find? (fun t => decide (rowId t = rowId s)) with
    | none =>
        [{ rowId := rowId s, column := none, sourceValue := none,
           targetValue := none, kind := .missing }]
    | some t => compareColumns s t)

/-- Modelled from the spec: the target-order pass of the Comparator — an
Extra discrepancy for each target row whose id matches no source row. -/
def compareExtras (sourceRows targetRows : List Row) : List Discrepancy :=
  (targetRows.filter (fun t =>
      (sourceRows.find? (fun s => decide (rowId s = rowId t))).isNone)).map
    (fun t =>
      { rowId := rowId t, column := none, sourceValue := none,
        targetValue := none, kind := .extra })

/-- Modelled from the spec:
`Compare(sourceRows, targetRows) -> ordered sequence of Discrepancy`,
emitting source-order Missing/Mismatch entries first, then target-order
Extra entries. -/
def Compare (sourceRows targetRows : List Row) : List Discrepancy :=
  compareMain sourceRows targetRows ++ compareExtras sourceRows targetRows

/-- Modelled from the spec: run status values. -/
inductive Status where
  | success
  | partialSuccess
  | failed
  deriving DecidableEq, Repr

/-- Modelled from the spec: the StageResult record. -/
structure StageResult where
  stage : Stage
  rowsProcessed : Nat
  rowsWritten : Nat
  discrepancies : List Discrepancy
  status : Status
  message : String
  deriving DecidableEq, Repr

/-- Modelled from the spec: the error taxonomy of §7 (TimeoutError concerns
real-time deadlines and is never produced by this model). -/
inductive PipelineError where
  | configurationError
  | unsupportedStageError
  | notFoundError
  | conflictError
  | timeoutError
  deriving DecidableEq, Repr

/-- Modelled from the spec: the project/dataset scope of a run. -/
structure Scope where
  projectId : String
  dataset : String
  deriving DecidableEq, Repr

/-- Modelled from the spec: the RunConfig record; `limit` is the integer
row-processing limit. -/
structure RunConfig where
  stage : Stage
  scope : Scope
  sourceVersion : String
  targetVersion : String
  limit : Int
  deriving DecidableEq, Repr

/-- Modelled from the spec: the warehouse behind the Dataset Accessor, a
key-value-of-rows store keyed by (dataset, table-version). -/
abbrev Store := List ((String × String) × List Row)

/-- Modelled from the spec: table lookup by (dataset, version label). -/
def lookupTable (st : Store) (scope : Scope) (version : String) :
    Option (List Row) :=
  (st.find? (fun p =>
      decide (p.1.1 = scope.dataset) && decide (p.1.2 = version))).map Prod.snd

/-- Modelled from the spec:
`ReadVersion(scope, version, limit) -> sequence of Row`; stops after
`limit` rows even if more exist, fails with NotFoundError when the version
does not exist in the scope. -/
def readVersion (st : Store) (scope : Scope) (version : String)
    (limit : Int) : Except PipelineError (List Row) :=
  match lookupTable st scope version with
  | none => .error .notFoundError
  | some rows => .ok (rows.take limit.toNat)

/-- Modelled from the spec:
`WriteVersion(scope, version, rows, overwrite) -> rowsWritten`; fails with
ConflictError when the version exists and overwrite is false. -/
def writeVersion (st : Store) (scope : Scope) (version : String)
    (rows : List Row) (overwrite : Bool) : Except PipelineError Nat :=
  if (lookupTable st scope version).isSome && !overwrite then
    .error .conflictError
  else
    .ok rows.length

/-- Modelled from the spec: whether the stage is a validator stage, for
which `targetVersion` is required and must differ from `sourceVersion`. -/
def stageNeedsTarget : Stage → Bool
  | .transcriptValidator => true
  | .shadowValidator => true
  | _ => false

/-- Modelled from the spec: the Run Coordinator's validation —
`limit > 0`, `sourceVersion` non-empty, and for the validator stages
`targetVersion` non-empty and distinct from `sourceVersion`. -/
def validateConfig (c : RunConfig) : Bool :=
  decide (0 < c.limit) && decide (c.sourceVersion ≠ "")
    && (if stageNeedsTarget c.stage then
          decide (c.targetVersion ≠ "") && decide (c.targetVersion ≠ c.sourceVersion)
        else true)

/-- Modelled from the spec: the StageResult wrapping a Dataset Accessor
failure — status Failed rather than a propagated raw I/O error. -/
def failedResult (stage : Stage) : StageResult :=
  { stage := stage, rowsProcessed := 0, rowsWritten := 0,
    discrepancies := [], status := .failed, message := "stage failed" }

/-- Modelled from the spec: the deterministic row transformation of the
TranscriptGenerator; a row whose required columns are missing (here: an
empty row) fails transformation and is skipped. -/
def transformRow (r : Row) : Option Row :=
  if r.isEmpty then none else some r

/-- Modelled from the spec: the target label a generator writes to — the
configured `targetVersion`, or an implicit generated label if absent. -/
def outputVersion (c : RunConfig) : String :=
  if c.targetVersion = "" then c.sourceVersion ++ "-generated" else c.targetVersion

/-- Modelled from the spec: the TranscriptGenerator stage — reads up to
`limit` rows from `sourceVersion`, transforms them, writes the result;
skipped rows yield PartialSuccess, Failed only when zero rows succeed. -/
def runTranscriptGenerator (st : Store) (c : RunConfig) : StageResult :=
  match readVersion st c.scope c.sourceVersion c.limit with
  | .error _ => failedResult c.stage
  | .ok src =>
    let transformed := src.filterMap transformRow
    match writeVersion st c.scope (outputVersion c) transformed true with
    | .error _ => failedResult c.stage
    | .ok written =>
      { stage := c.stage, rowsProcessed := src.length, rowsWritten := written,
        discrepancies := [],
        status :=
          if transformed.length = src.length then .success
          else if transformed.length = 0 then .failed
          else .partialSuccess,
        message := "" }

/-- Modelled from the spec: whether a row has all the given columns. -/
def rowHasCols (r : Row) (cols : List String) : Bool :=
  cols.all (fun c => (lookupCol r c).isSome)

/-- Modelled from the spec: the TranscriptValidator stage — reads source and
target, uses the target as a reference schema for per-row structural checks
on the source; failures become Mismatch discrepancies; writes nothing;
status is Success iff zero discrepancies. -/
def runTranscriptValidator (st : Store) (c : RunConfig) : StageResult :=
  match readVersion st c.scope c.sourceVersion c.limit with
  | .error _ => failedResult c.stage
  | .ok src =>
    match readVersion st c.scope c.targetVersion c.limit with
    | .error _ => failedResult c.stage
    | .ok tgt =>
      let schema := (tgt.head?.map rowCols).getD []
      let disc := (src.filter (fun r => !rowHasCols r schema)).map
        (fun r =>
          { rowId := rowId r, column := none, sourceValue := none,
            targetValue := none, kind := DKind.mismatch })
      { stage := c.stage, rowsProcessed := src.length, rowsWritten := 0,
        discrepancies := disc,
        status := if disc.isEmpty then .success else .partialSuccess,
        message := "" }

/-- Modelled from the spec: the SignalExtractor's projection of a row to its
narrower signal shape (the identifying column), collapsing duplicates. -/
def projectSignal (r : Row) : Option Row :=
  r.head?.map (fun p => [p])

/-- Modelled from the spec: the SignalExtractor stage — reads source,
derives a narrower signal row set (projection with aggregation collapsing
duplicate rows) and writes it; `rowsWritten` may be less than
`rowsProcessed` by design. -/
def runSignalExtractor (st : Store) (c : RunConfig) : StageResult :=
  match readVersion st c.scope c.sourceVersion c.limit with
  | .error _ => failedResult c.stage
  | .ok src =>
    let signals := (src.filterMap projectSignal).eraseDups
    match writeVersion st c.scope (outputVersion c) signals true with
    | .error _ => failedResult c.stage
    | .ok written =>
      { stage := c.stage, rowsProcessed := src.length, rowsWritten := written,
        discrepancies := [], status := .success, message := "" }

/-- Modelled from the spec: the ShadowValidator stage — reads both versions,
delegates to the Comparator, writes nothing; status Success iff zero
discrepancies, Failed when either side is unreadable. -/
def runShadowValidator (st : Store) (c : RunConfig) : StageResult :=
  match readVersion st c.scope c.sourceVersion c.limit with
  | .error _ => failedResult c.stage
  | .ok src =>
    match readVersion st c.scope c.targetVersion c.limit with
    | .error _ => failedResult c.stage
    | .ok tgt =>
      let disc := Compare src tgt
      { stage := c.stage, rowsProcessed := src.length, rowsWritten := 0,
        discrepancies := disc,
        status := if disc.isEmpty then .success else .partialSuccess,
        message := "" }

/-- Modelled from the spec: dispatch to the Stage Executor variant matching
the configured stage (a closed tagged variant, matched exhaustively). -/
def runStage (st : Store) (c : RunConfig) : StageResult :=
  match c.stage with
  | .transcriptGenerator => runTranscriptGenerator st c
  | .transcriptValidator => runTranscriptValidator st c
  | .signalExtractor => runSignalExtractor st c
  | .shadowValidator => runShadowValidator st c

/-- Modelled from the spec: the Run Coordinator's
`Execute(config: RunConfig) -> StageResult | Error` — fails with
ConfigurationError when validation fails (the run is never attempted),
otherwise delegates to the selected executor, which wraps accessor
failures as a Failed StageResult. -/
def Execute (st : Store) (c : RunConfig) : Except PipelineError StageResult :=
  if validateConfig c then .ok (runStage st c) else .error .configurationError

/-! ### Sample data used to instantiate the theorems -/

/-- A sample row with an id column and an amount column. -/
def sampleRow1 : Row := [("id", Value.int 1), ("amt", Value.int 10)]

/-- A second sample row with a different id. -/
def sampleRow2 : Row := [("id", Value.int 2), ("amt", Value.int 20)]

/-- A sample store holding one table version in dataset `d`. -/
def sampleStore : Store := [(("d", "v1"), [sampleRow1, sampleRow2])]

/-- A sample store holding the same rows under two version labels. -/
def sampleTwinStore : Store :=
  [(("d", "v1"), [sampleRow1, sampleRow2]),
   (("d", "v2"), [sampleRow1, sampleRow2])]

/-- A sample generator configuration. -/
def sampleGenConfig : RunConfig :=
  { stage := .transcriptGenerator, scope := { projectId := "p", dataset := "d" },
    sourceVersion := "v1", targetVersion := "v2", limit := 5 }

/-- A sample shadow-validation configuration over the twin store. -/
def sampleShadowConfig : RunConfig :=
  { stage := .shadowValidator, scope := { projectId := "p", dataset := "d" },
    sourceVersion := "v1", targetVersion := "v2", limit := 10 }

/-- A sample invalid configuration: a validator stage with an empty
target version. -/
def sampleBadConfig : RunConfig :=
  { stage := .transcriptValidator, scope := { projectId := "p", dataset := "d" },
    sourceVersion := "v1", targetVersion := "", limit := 10 }

/-- A non-integral row limit reachable through the form's number input
(the user types 2.5): the rational 5/2, given by its reduced fraction so
that its fields reduce definitionally. -/
def sampleFractionalLimit : ℚ := ⟨5, 2, by decide, by decide⟩

/-- A form state carrying the non-integral limit. -/
def sampleFractionalForm : FormState :=
  { stage := .transcriptGenerator, projectId := "p", dataset := "d",
    sourceVersion := "v1", targetVersion := "v2",
    limit := sampleFractionalLimit }

/-- The row ids of the discrepancies of a given kind, in emission order. -/
def discIds (k : DKind) (l : List Discrepancy) : List (Option Value) :=
  (l.filter (fun d => decide (d.kind = k))).map (fun d => d.rowId)

/-! ### Theorems about the presentation layer -/

/-- C1 (counterexample): the claim says the run request goes to the path
`/run` and that its `limit` field is an integer.  On a concrete form state
the request built by `handleRun` goes to `/api/run`, which is not `/run`;
and on the form state whose number input holds 2.5 the payload's `limit`
field carries the non-integral number 5/2. -/
theorem run_request_path_ne_run :
    (buildRunRequest sampleFractionalForm).path = "/api/run"
    ∧ "/api/run" ≠ "/run"
    ∧ (buildRunRequest sampleFractionalForm).body.getLast?
        = some ("limit", .num sampleFractionalLimit)
    ∧ sampleFractionalLimit = 5 / 2
    ∧ sampleFractionalLimit.isInt = false := by
  refine ⟨rfl, by decide, rfl, ?_, by decide⟩
  rw [show sampleFractionalLimit = Rat.mk' 5 2 from rfl, Rat.mk'_eq_divInt,
    Rat.divInt_eq_div]
  norm_num

/-- C1 (amended): for every form state, the presentation layer issues a POST
request to the path `/api/run` whose JSON body contains exactly the six
fields `stage`, `projectId`, `dataset`, `sourceVersion`, `targetVersion`
and `limit`, in that order, where the first five are strings and `limit` is
the form's numeric value — a JSON number that need not be an integer. -/
theorem run_request_shape (f : FormState) :
    (buildRunRequest f).path = "/api/run"
    ∧ (buildRunRequest f).method = "POST"
    ∧ ∃ s₁ s₂ s₃ s₄ s₅,
        (buildRunRequest f).body
          = [ ("stage", .str s₁), ("projectId", .str s₂), ("dataset", .str s₃),
              ("sourceVersion", .str s₄), ("targetVersion", .str s₅),
              ("limit", .num f.limit) ] :=
  ⟨rfl, rfl, stageLabel f.stage, f.projectId, f.dataset, f.sourceVersion,
    f.targetVersion, rfl⟩

/-- C2 (counterexample): the stage string sent for the first stage variant is
`"Transcript Generator"`, which is not among the four unspaced names the
claim lists. -/
theorem stage_label_not_unspaced :
    stageLabel .transcriptGenerator = "Transcript Generator"
    ∧ stageLabel .transcriptGenerator
        ∉ [ "TranscriptGenerator", "TranscriptValidator", "SignalExtractor",
            "ShadowValidator" ] := by
  constructor
  · rfl
  · decide

/-- C2 (amended): the `stage` field of every run request produced by the
presentation layer is one of the four spaced stage names shown in the
form's select options. -/
theorem stage_field_in_options (f : FormState) :
    (buildRunRequest f).body.head? = some ("stage", .str (stageLabel f.stage))
    ∧ stageLabel f.stage
        ∈ [ "Transcript Generator", "Transcript Validator",
            "Signal Extractor", "Shadow Validator" ] := by
  refine ⟨rfl, ?_⟩
  cases f.stage <;> simp [stageLabel]

/-- C9: every execution of `handleRun` ends with the loading flag false,
whether the fetch resolved OK, resolved non-OK, or threw. -/
theorem handleRun_loading_false (o : FetchOutcome) :
    (handleRun o).loading = false := by
  cases o <;> rfl

/-- C10: on a non-OK HTTP status, `handleRun` never reads the response body
(the final state is the same for any body), sets the error to exactly
`"HTTP "` followed by the status code, and leaves the result `null`. -/
theorem handleRun_nonOk (status : Nat) (body body' : String) :
    handleRun (.nonOk status body) = handleRun (.nonOk status body')
    ∧ (handleRun (.nonOk status body)).error
        = some ("HTTP " ++ toString status)
    ∧ (handleRun (.nonOk status body)).result = none :=
  ⟨rfl, rfl, rfl⟩


/-! ### Theorems about the orchestration engine -/

/-- Unfolding of the Run Coordinator's validation predicate. -/
theorem validateConfig_iff (c : RunConfig) :
    validateConfig c = true ↔
      0 < c.limit ∧ c.sourceVersion ≠ ""
        ∧ (stageNeedsTarget c.stage = true →
            c.targetVersion ≠ "" ∧ c.targetVersion ≠ c.sourceVersion) := by
  unfold validateConfig
  cases h : stageNeedsTarget c.stage <;> simp [h, and_assoc]

/-- C3: `Execute` fails with ConfigurationError for every store (hence
before any I/O, the run never attempted) whenever the limit is not
positive, or the source version is empty, or the stage is a validator
stage whose target version is empty or equal to the source version. -/
theorem execute_rejects_invalid_config (st : Store) (c : RunConfig)
    (h : c.limit ≤ 0 ∨ c.sourceVersion = ""
      ∨ ((c.stage = .transcriptValidator ∨ c.stage = .shadowValidator)
          ∧ (c.targetVersion = "" ∨ c.targetVersion = c.sourceVersion))) :
    Execute st c = .error .configurationError := by
  have hv : validateConfig c ≠ true := by
    intro hv
    rw [validateConfig_iff] at hv
    obtain ⟨hl, hs, ht⟩ := hv
    rcases h with h | h | ⟨hstage, htgt⟩
    · omega
    · exact hs h
    · have hneed : stageNeedsTarget c.stage = true := by
        rcases hstage with h | h <;> rw [h] <;> rfl
      rcases ht hneed with ⟨h1, h2⟩
      rcases htgt with h3 | h3
      · exact h1 h3
      · exact h2 h3
  simp only [Execute, Bool.not_eq_true] at hv ⊢
  rw [hv]
  rfl

/-- C3 (witness): a TranscriptValidator configuration with an empty target
version is rejected with ConfigurationError. -/
theorem execute_rejects_invalid_config_witness :
    Execute sampleStore sampleBadConfig = .error .configurationError :=
  execute_rejects_invalid_config sampleStore sampleBadConfig
    (Or.inr (Or.inr ⟨Or.inl rfl, Or.inl rfl⟩))

/-- C8 (counterexample): a TranscriptGenerator run with `limit = 0` is not
accepted — on a concrete store it yields ConfigurationError, not a Success
result. -/
theorem generator_limit_zero_rejected :
    Execute sampleStore
      { stage := .transcriptGenerator, scope := { projectId := "p", dataset := "d" },
        sourceVersion := "v1", targetVersion := "v2", limit := 0 }
      = .error .configurationError := rfl

/-- C8 (amended): a TranscriptGenerator run given `limit = 0` is rejected
with ConfigurationError before any I/O, for every store. -/
theorem generator_limit_zero_config_error (st : Store) (c : RunConfig)
    (_hstage : c.stage = .transcriptGenerator) (hlim : c.limit = 0) :
    Execute st c = .error .configurationError := by
  have hv : validateConfig c ≠ true := by
    intro hv
    rw [validateConfig_iff] at hv
    omega
  simp only [Execute, Bool.not_eq_true] at hv ⊢
  rw [hv]
  rfl

/-- C8 (amended, witness): the generator configuration with limit 0 on the
sample store is rejected. -/
theorem generator_limit_zero_config_error_witness :
    Execute sampleStore
      { stage := .transcriptGenerator, scope := { projectId := "p", dataset := "d" },
        sourceVersion := "v1", targetVersion := "v2", limit := 0 }
      = .error .configurationError :=
  generator_limit_zero_config_error sampleStore
    { stage := .transcriptGenerator, scope := { projectId := "p", dataset := "d" },
      sourceVersion := "v1", targetVersion := "v2", limit := 0 } rfl rfl

/-- C6: the Comparator is deterministic — identical source and target row
lists always produce identical, identically-ordered discrepancy
sequences. -/
theorem compare_deterministic (A₁ B₁ A₂ B₂ : List Row)
    (hA : A₁ = A₂) (hB : B₁ = B₂) : Compare A₁ B₁ = Compare A₂ B₂ := by
  rw [hA, hB]

/-- C6 (witness): determinism instantiated on concrete row lists. -/
theorem compare_deterministic_witness :
    Compare [sampleRow1] [sampleRow2] = Compare [sampleRow1] [sampleRow2] :=
  compare_deterministic [sampleRow1] [sampleRow2] [sampleRow1] [sampleRow2]
    rfl rfl

/-- The Dataset Accessor truncates: a successful `readVersion` returns at
most `limit.toNat` rows. -/
theorem readVersion_length_le (st : Store) (sc : Scope) (v : String)
    (l : Int) (rows : List Row)
    (h : readVersion st sc v l = .ok rows) : rows.length ≤ l.toNat := by
  unfold readVersion at h
  cases hl : lookupTable st sc v with
  | none => rw [hl] at h; cases h
  | some rs =>
    rw [hl] at h
    cases h
    simp only [List.length_take]
    omega

/-- Every Stage Executor variant processes at most `limit.toNat` rows. -/
theorem runStage_rowsProcessed_le (st : Store) (c : RunConfig) :
    (runStage st c).rowsProcessed ≤ c.limit.toNat := by
  unfold runStage
  cases c.stage <;> simp only []
  case transcriptGenerator =>
    unfold runTranscriptGenerator
    split
    · simp [failedResult]
    · rename_i src h1
      have hle := readVersion_length_le _ _ _ _ _ h1
      dsimp only
      split
      · simp [failedResult]
      · simpa using hle
  case transcriptValidator =>
    unfold runTranscriptValidator
    split
    · simp [failedResult]
    · rename_i src h1
      have hle := readVersion_length_le _ _ _ _ _ h1
      split
      · simp [failedResult]
      · simpa using hle
  case signalExtractor =>
    unfold runSignalExtractor
    split
    · simp [failedResult]
    · rename_i src h1
      have hle := readVersion_length_le _ _ _ _ _ h1
      dsimp only
      split
      · simp [failedResult]
      · simpa using hle
  case shadowValidator =>
    unfold runShadowValidator
    split
    · simp [failedResult]
    · rename_i src h1
      have hle := readVersion_length_le _ _ _ _ _ h1
      split
      · simp [failedResult]
      · simpa using hle

/-- C4: for every valid configuration with limit `L`, the StageResult of
`Execute` has `rowsProcessed ≤ L`; and `readVersion` yields at most
`limit` rows even when the table version holds more. -/
theorem rows_processed_le_limit :
    (∀ (st : Store) (c : RunConfig) (r : StageResult),
        validateConfig c = true → Execute st c = .ok r →
        (r.rowsProcessed : Int) ≤ c.limit)
    ∧ (∀ (st : Store) (sc : Scope) (v : String) (l : Int) (rows : List Row),
        readVersion st sc v l = .ok rows → rows.length ≤ l.toNat) := by
  constructor
  · intro st c r hv he
    have hr : r = runStage st c := by
      unfold Execute at he
      rw [hv] at he
      simpa using he.symm
    have hle := runStage_rowsProcessed_le st c
    have hlim : 0 < c.limit := ((validateConfig_iff c).mp hv).1
    rw [hr]
    omega
  · exact readVersion_length_le

/-- C4 (witness): a concrete generator run over the sample store processes
at most the configured limit of rows, and a concrete read returns at most
the limit. -/
theorem rows_processed_le_limit_witness :
    (((runStage sampleStore sampleGenConfig).rowsProcessed : Int)
        ≤ sampleGenConfig.limit)
    ∧ [sampleRow1, sampleRow2].length ≤ (5 : Int).toNat :=
  ⟨rows_processed_le_limit.1 sampleStore sampleGenConfig
      (runStage sampleStore sampleGenConfig) (by decide) rfl,
    rows_processed_le_limit.2 sampleStore
      { projectId := "p", dataset := "d" } "v1" 5 [sampleRow1, sampleRow2]
      rfl⟩

/-- Every discrepancy emitted by the column comparison has kind Mismatch. -/
theorem compareColumns_kind (s t : Row) (d : Discrepancy)
    (hd : d ∈ compareColumns s t) : d.kind = .mismatch := by
  unfold compareColumns at hd
  simp only [List.mem_filterMap] at hd
  rcases hd with ⟨c, _, hc⟩
  split at hc
  · cases hc
  · cases hc
    rfl

/-- The column comparison never emits a discrepancy of a non-Mismatch
kind. -/
theorem discIds_compareColumns (s t : Row) (k : DKind) (hk : k ≠ .mismatch) :
    discIds k (compareColumns s t) = [] := by
  unfold discIds
  have hfil : (compareColumns s t).filter (fun d => decide (d.kind = k)) = [] := by
    rw [List.filter_eq_nil_iff]
    intro d hd
    simp [compareColumns_kind s t d hd, Ne.symm hk]
  rw [hfil]
  rfl

/-- The Missing ids of the source-order pass are the ids of the source rows
with no id match among the targets, in source order. -/
theorem discIds_missing_compareMain (A B : List Row) :
    discIds .missing (compareMain A B)
      = (A.filter (fun s =>
          (B.find? (fun t => decide (rowId t = rowId s))).isNone)).map rowId := by
  induction A with
  | nil => rfl
  | cons s A ih =>
    rw [compareMain, List.flatMap_cons, ← compareMain]
    cases hf : B.find? (fun t => decide (rowId t = rowId s)) with
    | none =>
      rw [List.filter_cons]
      simp only [hf, Option.isNone_none]
      unfold discIds at ih ⊢
      simp only [List.filter_append, List.map_append, List.filter_cons]
      simp [ih]
    | some t =>
      rw [List.filter_cons]
      simp only [hf, Option.isNone_some]
      unfold discIds at ih ⊢
      simp only [List.filter_append, List.map_append]
      have hcc := discIds_compareColumns s t .missing (by simp)
      unfold discIds at hcc
      simp [hcc, ih]

/-- The source-order pass emits no Extra discrepancies. -/
theorem discIds_extra_compareMain (A B : List Row) :
    discIds .extra (compareMain A B) = [] := by
  unfold discIds
  have hfil : (compareMain A B).filter
      (fun d => decide (d.kind = DKind.extra)) = [] := by
    rw [List.filter_eq_nil_iff]
    intro d hd
    unfold compareMain at hd
    simp only [List.mem_flatMap] at hd
    rcases hd with ⟨s, _, hmem⟩
    revert hmem
    cases hf : B.find? (fun t => decide (rowId t = rowId s)) with
    | none =>
      intro hmem
      simp only [List.mem_singleton] at hmem
      subst hmem
      simp
    | some t =>
      intro hmem
      simp [compareColumns_kind s t d hmem]
  rw [hfil]
  rfl

/-- The target-order pass emits no Missing discrepancies. -/
theorem discIds_missing_compareExtras (A B : List Row) :
    discIds .missing (compareExtras A B) = [] := by
  unfold discIds
  have hfil : (compareExtras A B).filter
      (fun d => decide (d.kind = DKind.missing)) = [] := by
    rw [List.filter_eq_nil_iff]
    intro d hd
    unfold compareExtras at hd
    simp only [List.mem_map] at hd
    rcases hd with ⟨t, _, ht⟩
    subst ht
    simp
  rw [hfil]
  rfl

/-- The Extra ids of the target-order pass are the ids of the target rows
with no id match among the sources, in target order. -/
theorem discIds_extra_compareExtras (A B : List Row) :
    discIds .extra (compareExtras A B)
      = (B.filter (fun t =>
          (A.find? (fun s => decide (rowId s = rowId t))).isNone)).map rowId := by
  unfold discIds compareExtras
  rw [List.filter_map]
  have hp : ((fun d : Discrepancy => decide (d.kind = .extra)) ∘
      (fun t : Row =>
        ({ rowId := rowId t, column := none, sourceValue := none,
           targetValue := none, kind := .extra } : Discrepancy)))
      = fun _ => true := by
    funext t
    simp
  rw [hp, List.filter_true, List.map_map]
  rfl

/-- C5: the Missing discrepancies of `Compare(A,B)` carry exactly the row
ids, in order, of the Extra discrepancies of `Compare(B,A)`, and
conversely. -/
theorem compare_missing_extra_swap (A B : List Row) :
    discIds .missing (Compare A B) = discIds .extra (Compare B A)
    ∧ discIds .extra (Compare A B) = discIds .missing (Compare B A) := by
  have key : ∀ X Y : List Row,
      discIds .missing (Compare X Y) = discIds .extra (Compare Y X) := by
    intro X Y
    unfold Compare
    unfold discIds
    rw [List.filter_append, List.filter_append, List.map_append,
      List.map_append]
    have h1 := discIds_missing_compareMain X Y
    have h2 := discIds_missing_compareExtras X Y
    have h3 := discIds_extra_compareMain Y X
    have h4 := discIds_extra_compareExtras Y X
    unfold discIds at h1 h2 h3 h4
    rw [h1, h2, h3, h4]
    simp
  exact ⟨key A B, (key B A).symm⟩

/-- When row ids are pairwise distinct, looking a row's id up in its own
list finds that row. -/
theorem find?_rowId_self (A : List Row) (hnd : (A.map rowId).Nodup)
    (s : Row) (hs : s ∈ A) :
    A.find? (fun t => decide (rowId t = rowId s)) = some s := by
  induction A with
  | nil => cases hs
  | cons a A ih =>
    rw [List.map_cons, List.nodup_cons] at hnd
    rcases List.mem_cons.mp hs with h | h
    · subst h
      rw [List.find?_cons_of_pos]
      simp
    · have hne : rowId a ≠ rowId s := by
        intro he
        exact hnd.1 (he ▸ List.mem_map_of_mem rowId h)
      rw [List.find?_cons_of_neg]
      · exact ih hnd.2 h
      · simp [hne]

/-- Comparing a row with itself yields no column mismatches. -/
theorem compareColumns_self (r : Row) : compareColumns r r = [] := by
  unfold compareColumns
  rw [List.filterMap_eq_nil_iff]
  intro c _
  simp

/-- Comparing a row set against itself yields no discrepancies, provided
its natural identifiers are pairwise distinct. -/
theorem compare_self (A : List Row) (hnd : (A.map rowId).Nodup) :
    Compare A A = [] := by
  unfold Compare
  have hmain : compareMain A A = [] := by
    unfold compareMain
    rw [List.flatMap_eq_nil_iff]
    intro s hs
    rw [find?_rowId_self A hnd s hs]
    exact compareColumns_self s
  have hextra : compareExtras A A = [] := by
    unfold compareExtras
    have hfil : A.filter (fun t =>
        (A.find? (fun s => decide (rowId s = rowId t))).isNone) = [] := by
      rw [List.filter_eq_nil_iff]
      intro t ht
      rw [find?_rowId_self A hnd t ht]
      simp
    rw [hfil]
    rfl
  rw [hmain, hextra]
  rfl

/-- C7: a ShadowValidator run whose source and target versions read as the
same rows (with distinct natural identifiers) yields a result with zero
discrepancies and status Success. -/
theorem shadow_validator_identical (st : Store) (c : RunConfig)
    (rows : List Row)
    (hstage : c.stage = .shadowValidator)
    (hv : validateConfig c = true)
    (hsrc : readVersion st c.scope c.sourceVersion c.limit = .ok rows)
    (htgt : readVersion st c.scope c.targetVersion c.limit = .ok rows)
    (hnd : (rows.map rowId).Nodup) :
    ∃ r, Execute st c = .ok r
      ∧ r.discrepancies = [] ∧ r.status = .success := by
  refine ⟨runStage st c, ?_, ?_⟩
  · simp [Execute, hv]
  · have hrun : runStage st c
        = { stage := c.stage, rowsProcessed := rows.length, rowsWritten := 0,
            discrepancies := [], status := .success, message := "" } := by
      unfold runStage
      rw [hstage]
      simp only []
      unfold runShadowValidator
      rw [hsrc, htgt]
      simp [compare_self rows hnd, hstage]
    rw [hrun]
    exact ⟨rfl, rfl⟩

/-- C7 (witness): shadow validation of two version labels holding the same
concrete rows succeeds with no discrepancies. -/
theorem shadow_validator_identical_witness :
    ∃ r, Execute sampleTwinStore sampleShadowConfig = .ok r
      ∧ r.discrepancies = [] ∧ r.status = .success :=
  shadow_validator_identical sampleTwinStore sampleShadowConfig
    [sampleRow1, sampleRow2] rfl (by decide) rfl rfl (by decide)

end VelocityAI
